import Mathlib

/-!
Verification of the jupyter_mgr service (src/src/app.py): a Flask app that
creates, lists and deletes Docker containers running Jupyter Notebook.  The
Docker engine is modelled as an explicit state (a list of containers); the
HTTP handlers become pure functions from engine state (plus the request data
and injected engine-failure flags) to a response together with the new engine
state.  Randomness (random.randint) is modelled by an oracle giving the raw
draw for each attempt, mapped into the inclusive range as randint guarantees.
-/

namespace JupyterMgr

/-- Configuration read from the environment at process start
(JUPYTER_PORT_START, JUPYTER_PORT_END, HOST_IP, API_KEY). -/
structure Config where
  portStart : Nat
  portEnd : Nat
  hostIp : String
  apiKey : String
deriving Repr, DecidableEq

/-- One container known to the Docker engine.  `running` abstracts
container.status (running vs anything else); `hostPort` is the host port bound
to the container port 8888/tcp, if any; `labelApp` and `labelManagedBy` are
the values of the labels `app` and `managed_by`. -/
structure Container where
  name : String
  running : Bool
  hostPort : Option Nat
  ip : String
  labelApp : String
  labelManagedBy : String
deriving Repr, DecidableEq

/-- The Docker engine state: the set of containers it knows, as a list. -/
structure Engine where
  containers : List Container
deriving Repr, DecidableEq

/-- Models Python random.randint a b: an integer N with a ≤ N ≤ b, the raw
draw `x` being supplied by the random source. -/
def randint (a b x : Nat) : Nat := a + x % (b - a + 1)

/-- The default `retries` argument of find_available_port. -/
def DEFAULT_RETRIES : Nat := 5

/-- The message of the RuntimeError raised when all retries fail to bind. -/
def noPortsMsg : String :=
  "No available ports found within the specified range after multiple attempts."

/-- The loop of find_available_port: `fuel` is the number of iterations left,
`i` the index of the current draw (so `rng i` is the raw value fed to
random.randint on this iteration), `binds p` tells whether a local TCP bind
on port p succeeds.  Returns the first drawn port that binds, otherwise the
RuntimeError message. -/
def find_available_port_loop (portStart portEnd : Nat) (rng : Nat → Nat)
    (binds : Nat → Bool) (i : Nat) : Nat → Except String Nat
  | 0 => Except.error noPortsMsg
  | fuel + 1 =>
      let port := randint portStart portEnd (rng i)
      if binds port then Except.ok port
      else find_available_port_loop portStart portEnd rng binds (i + 1) fuel

/-- find_available_port(retries): up to `retries` random draws in
[portStart, portEnd], returning the first port that binds. -/
def find_available_port (portStart portEnd : Nat) (rng : Nat → Nat)
    (binds : Nat → Bool) (retries : Nat) : Except String Nat :=
  find_available_port_loop portStart portEnd rng binds 0 retries

/-- The same loop, instrumented with the number of currently open bind-test
sockets: each iteration opens one socket (`with socket.socket(...) as s`),
and the with-block closes it on every exit path — both when `s.bind`
succeeds (before `return port`) and when it raises OSError (before
`continue`). -/
def find_available_port_sockets (portStart portEnd : Nat) (rng : Nat → Nat)
    (binds : Nat → Bool) (i openSocks : Nat) : Nat → Except String Nat × Nat
  | 0 => (Except.error noPortsMsg, openSocks)
  | fuel + 1 =>
      let opened := openSocks + 1
      let port := randint portStart portEnd (rng i)
      if binds port then (Except.ok port, opened - 1)
      else find_available_port_sockets portStart portEnd rng binds (i + 1)
        (opened - 1) fuel

/-- require_api_key: the request passes iff the x-api-key header is present,
truthy (non-empty) and equal to API_KEY (`if key and key == API_KEY`). -/
def authenticate (key : Option String) (apiKey : String) : Bool :=
  match key with
  | none => false
  | some k => (!(k == "")) && k == apiKey

/-- Response of the create_notebook endpoint (fields of the jsonify payload
plus the HTTP status code). -/
structure CreateResponse where
  status : Nat
  success : Bool
  notebook_url : Option String
  container_name : Option String
  port : Option Nat
  error : Option String
deriving Repr, DecidableEq

/-- create_notebook: generate a name from the random unique id, allocate a
port (default 5 retries), then ask the engine to run the container.
`runFails` injects a docker APIError from client.containers.run;
`assignedIp` is the container IP the engine would assign.  A RuntimeError
from the allocator is caught and returned as a 500 with its message, before
any engine call is made. -/
def create_notebook (cfg : Config) (st : Engine) (uniqueId : String)
    (rng : Nat → Nat) (binds : Nat → Bool) (runFails : Bool)
    (assignedIp : String) : CreateResponse × Engine :=
  match find_available_port cfg.portStart cfg.portEnd rng binds DEFAULT_RETRIES with
  | Except.error msg =>
      ({ status := 500, success := false, notebook_url := none,
         container_name := none, port := none, error := some msg }, st)
  | Except.ok port =>
      let containerName := "jupyter-" ++ uniqueId
      if runFails then
        ({ status := 500, success := false, notebook_url := none,
           container_name := none, port := none,
           error := some "Docker API error." }, st)
      else
        let c : Container :=
          { name := containerName, running := true, hostPort := some port,
            ip := assignedIp, labelApp := "jupyter-notebook",
            labelManagedBy := "flask_app" }
        ({ status := 201, success := true,
           notebook_url :=
             some ("http://" ++ cfg.hostIp ++ ":" ++ toString port ++ "/"),
           container_name := some containerName, port := some port,
           error := none },
         { containers := st.containers ++ [c] })

/-- One element of the notebooks array returned by list_notebooks. -/
structure NotebookEntry where
  name : String
  status : String
  port : Option Nat
  ip : String
deriving Repr, DecidableEq

/-- container.status as a string: `running` for a running container,
`exited` (representative non-running status) otherwise. -/
def containerStatus (c : Container) : String :=
  if c.running then "running" else "exited"

/-- The filter actually applied by list_notebooks.  The Python source builds
the filters dict as a literal with the key `label` twice; the second entry
overwrites the first, so only `managed_by=flask_app` is filtered on. -/
def managedFilter (c : Container) : Bool := c.labelManagedBy == "flask_app"

/-- Response of the list_notebooks endpoint. -/
structure ListResponse where
  status : Nat
  success : Bool
  notebooks : List NotebookEntry
deriving Repr, DecidableEq

/-- list_notebooks: client.containers.list with all=True and the label
filter, so every matching container is returned regardless of its state,
each reported with its current status, 8888/tcp host port and IP. -/
def list_notebooks (st : Engine) : ListResponse :=
  { status := 200, success := true,
    notebooks := (st.containers.filter managedFilter).map fun c =>
      { name := c.name, status := containerStatus c, port := c.hostPort,
        ip := c.ip } }

/-- client.containers.get by name: the container with that name, if the
engine knows one (docker.errors.NotFound otherwise). -/
def containersGet (st : Engine) (name : String) : Option Container :=
  st.containers.find? fun c => c.name == name

/-- container.stop(): the engine marks the container as no longer running. -/
def stopContainer (st : Engine) (name : String) : Engine :=
  { containers := st.containers.map fun c =>
      if c.name == name then { c with running := false } else c }

/-- container.remove(): the engine forgets the container. -/
def removeContainer (st : Engine) (name : String) : Engine :=
  { containers := st.containers.filter fun c => !(c.name == name) }

/-- Response of the delete_notebook endpoint. -/
structure DeleteResponse where
  status : Nat
  success : Bool
  message : Option String
  error : Option String
deriving Repr, DecidableEq

/-- delete_notebook(container_name): get the container (404 if the engine
does not know the name), stop it, then remove it.  `stopFails` and
`removeFails` inject docker APIErrors from container.stop and
container.remove, each caught and returned as a 500. -/
def delete_notebook (st : Engine) (stopFails removeFails : String → Bool)
    (containerName : String) : DeleteResponse × Engine :=
  match containersGet st containerName with
  | none =>
      ({ status := 404, success := false, message := none,
         error := some "Container not found." }, st)
  | some _ =>
      if stopFails containerName then
        ({ status := 500, success := false, message := none,
           error := some "Docker API error." }, st)
      else
        let st1 := stopContainer st containerName
        if removeFails containerName then
          ({ status := 500, success := false, message := none,
             error := some "Docker API error." }, st1)
        else
          ({ status := 200, success := true,
             message := some ("Container " ++ containerName ++
               " stopped and removed."), error := none },
           removeContainer st1 containerName)

/-- The create endpoint with its require_api_key decorator: an absent,
empty or wrong x-api-key header short-circuits to a 401 without running the
handler body. -/
def handle_create (cfg : Config) (key : Option String) (st : Engine)
    (uniqueId : String) (rng : Nat → Nat) (binds : Nat → Bool)
    (runFails : Bool) (assignedIp : String) : CreateResponse × Engine :=
  if authenticate key cfg.apiKey then
    create_notebook cfg st uniqueId rng binds runFails assignedIp
  else
    ({ status := 401, success := false, notebook_url := none,
       container_name := none, port := none,
       error := some "Unauthorized" }, st)

/-- The list endpoint with its require_api_key decorator. -/
def handle_list (cfg : Config) (key : Option String) (st : Engine) :
    ListResponse × Engine :=
  if authenticate key cfg.apiKey then (list_notebooks st, st)
  else ({ status := 401, success := false, notebooks := [] }, st)

/-- The delete endpoint with its require_api_key decorator. -/
def handle_delete (cfg : Config) (key : Option String) (st : Engine)
    (stopFails removeFails : String → Bool) (containerName : String) :
    DeleteResponse × Engine :=
  if authenticate key cfg.apiKey then
    delete_notebook st stopFails removeFails containerName
  else
    ({ status := 401, success := false, message := none,
       error := some "Unauthorized" }, st)

end JupyterMgr

namespace JupyterMgr

theorem randint_mem (a b x : Nat) (h : a ≤ b) :
    a ≤ randint a b x ∧ randint a b x ≤ b := by
  unfold randint
  have hlt := Nat.mod_lt x (show 0 < b - a + 1 from Nat.succ_pos _)
  omega

theorem find_loop_ok (ps pe : Nat) (rng : Nat → Nat) (binds : Nat → Bool) :
    ∀ fuel i port,
      find_available_port_loop ps pe rng binds i fuel = Except.ok port →
      ∃ k, k < fuel ∧ port = randint ps pe (rng (i + k)) ∧ binds port = true ∧
        ∀ j, j < k → binds (randint ps pe (rng (i + j))) = false := by
  intro fuel
  induction fuel with
  | zero =>
      intro i port h
      simp [find_available_port_loop] at h
  | succ n ih =>
      intro i port h
      simp only [find_available_port_loop] at h
      by_cases hb : binds (randint ps pe (rng i)) = true
      · rw [if_pos hb] at h
        injection h with h
        refine ⟨0, Nat.succ_pos n, ?_, ?_, ?_⟩
        · rw [Nat.add_zero]
          exact h.symm
        · rw [h] at hb
          exact hb
        · intro j hj
          omega
      · rw [if_neg hb] at h
        obtain ⟨k, hk, hp, hbp, hprev⟩ := ih (i + 1) port h
        refine ⟨k + 1, by omega, ?_, hbp, ?_⟩
        · have e : i + (k + 1) = (i + 1) + k := by omega
          rw [e]
          exact hp
        · intro j hj
          match j with
          | 0 =>
              rw [Nat.add_zero, Bool.not_eq_true] at *
              exact hb
          | j + 1 =>
              have e : i + (j + 1) = (i + 1) + j := by omega
              rw [e]
              exact hprev j (by omega)

theorem find_loop_err (ps pe : Nat) (rng : Nat → Nat) (binds : Nat → Bool) :
    ∀ fuel i, (∀ k, k < fuel → binds (randint ps pe (rng (i + k))) = false) →
      find_available_port_loop ps pe rng binds i fuel = Except.error noPortsMsg := by
  intro fuel
  induction fuel with
  | zero => intro i _; rfl
  | succ n ih =>
      intro i hall
      have h0 : binds (randint ps pe (rng i)) = false := by
        have := hall 0 (Nat.succ_pos n)
        rwa [Nat.add_zero] at this
      simp only [find_available_port_loop]
      rw [if_neg (by simp [h0])]
      refine ih (i + 1) fun k hk => ?_
      have := hall (k + 1) (by omega)
      have e : i + (k + 1) = (i + 1) + k := by omega
      rwa [e] at this

theorem find_sockets_spec (ps pe : Nat) (rng : Nat → Nat) (binds : Nat → Bool) :
    ∀ fuel i c,
      (find_available_port_sockets ps pe rng binds i c fuel).2 = c ∧
      (find_available_port_sockets ps pe rng binds i c fuel).1 =
        find_available_port_loop ps pe rng binds i fuel := by
  intro fuel
  induction fuel with
  | zero => intro i c; exact ⟨rfl, rfl⟩
  | succ n ih =>
      intro i c
      simp only [find_available_port_sockets, find_available_port_loop]
      by_cases hb : binds (randint ps pe (rng i)) = true
      · rw [if_pos hb, if_pos hb]
        exact ⟨by omega, rfl⟩
      · rw [if_neg hb, if_neg hb]
        have e : c + 1 - 1 = c := by omega
        rw [e]
        exact ih (i + 1) c

/-- C3: find_available_port makes at most `retries` attempts, each drawing a
random port from the inclusive range [portStart, portEnd] (randint maps every
raw draw into that range); it returns the first drawn port on which the bind
probe succeeds, and if all `retries` draws fail to bind it fails with the
RuntimeError message stating that no port was found after multiple
attempts. -/
theorem find_available_port_first_binding_or_error (ps pe : Nat)
    (rng : Nat → Nat) (binds : Nat → Bool) (retries : Nat) :
    (∀ port, find_available_port ps pe rng binds retries = Except.ok port →
      ∃ i, i < retries ∧ port = randint ps pe (rng i) ∧ binds port = true ∧
        ∀ j, j < i → binds (randint ps pe (rng j)) = false) ∧
    ((∀ i, i < retries → binds (randint ps pe (rng i)) = false) →
      find_available_port ps pe rng binds retries = Except.error noPortsMsg) := by
  constructor
  · intro port h
    obtain ⟨k, hk, hp, hb, hprev⟩ := find_loop_ok ps pe rng binds retries 0 port h
    refine ⟨k, hk, by simpa using hp, hb, fun j hj => ?_⟩
    have := hprev j hj
    simpa using this
  · intro hall
    refine find_loop_err ps pe rng binds retries 0 fun k hk => ?_
    simpa using hall k hk

/-- Witness for C3: with raw draws 0,1,2,... in range [9000,9002] and only
port 9001 bindable, the allocator returns 9001 as the first binding draw. -/
theorem find_available_port_first_binding_or_error_witness :
    ∃ i, i < 5 ∧ (9001 : Nat) = randint 9000 9002 ((fun n : Nat => n) i) ∧
      ((fun p : Nat => p == 9001) 9001) = true ∧
      ∀ j, j < i →
        ((fun p : Nat => p == 9001) (randint 9000 9002 ((fun n : Nat => n) j))) = false :=
  (find_available_port_first_binding_or_error 9000 9002 (fun n => n)
    (fun p => p == 9001) 5).1 9001 (by rfl)

end JupyterMgr

namespace JupyterMgr

/-- C8: whenever find_available_port returns (with a port or with a failure),
every bind-test socket it opened has been closed: the instrumented allocator
ends with zero open sockets and computes the same result as the allocator
itself. -/
theorem find_available_port_closes_sockets (ps pe : Nat) (rng : Nat → Nat)
    (binds : Nat → Bool) (retries : Nat) :
    (find_available_port_sockets ps pe rng binds 0 0 retries).2 = 0 ∧
    (find_available_port_sockets ps pe rng binds 0 0 retries).1 =
      find_available_port ps pe rng binds retries :=
  find_sockets_spec ps pe rng binds retries 0 0

/-- A fixed configuration used to instantiate witness theorems: port range
[9000, 9002], host 127.0.0.1, API key `secret`. -/
def cfgW : Config :=
  { portStart := 9000, portEnd := 9002, hostIp := "127.0.0.1",
    apiKey := "secret" }

/-- C2: for every successful create_notebook call (status 201), the port
returned in the response lies within the configured port range
[JUPYTER_PORT_START, JUPYTER_PORT_END]. -/
theorem create_notebook_port_in_range (cfg : Config) (st : Engine)
    (uid : String) (rng : Nat → Nat) (binds : Nat → Bool) (runFails : Bool)
    (ip : String) (p : Nat) (hrange : cfg.portStart ≤ cfg.portEnd)
    (_hstatus : (create_notebook cfg st uid rng binds runFails ip).1.status = 201)
    (hport : (create_notebook cfg st uid rng binds runFails ip).1.port = some p) :
    cfg.portStart ≤ p ∧ p ≤ cfg.portEnd := by
  unfold create_notebook at hport
  cases hfa : find_available_port cfg.portStart cfg.portEnd rng binds
      DEFAULT_RETRIES with
  | error msg =>
      rw [hfa] at hport
      simp at hport
  | ok q =>
      rw [hfa] at hport
      by_cases hr : runFails = true
      · simp [hr] at hport
      · simp [hr] at hport
        obtain ⟨k, _, hq, _, _⟩ :=
          find_loop_ok cfg.portStart cfg.portEnd rng binds DEFAULT_RETRIES 0 q hfa
        rw [← hport, hq]
        exact randint_mem cfg.portStart cfg.portEnd (rng (0 + k)) hrange

/-- Witness for C2: with draws 0,1,2,... and only port 9001 bindable, the
create succeeds with port 9001, which lies in [9000, 9002]. -/
theorem create_notebook_port_in_range_witness :
    (create_notebook cfgW { containers := [] } "abc" (fun n => n)
        (fun p => p == 9001) false "172.17.0.2").1.status = 201 ∧
    (9000 : Nat) ≤ 9001 ∧ (9001 : Nat) ≤ 9002 :=
  ⟨by rfl,
   create_notebook_port_in_range cfgW { containers := [] } "abc" (fun n => n)
     (fun p => p == 9001) false "172.17.0.2" 9001 (by decide) (by rfl) (by rfl)⟩

/-- C4: if every bind attempt fails (the allocator exhausts its retries),
create_notebook returns HTTP 500 carrying the allocation error message and
the engine state is unchanged — no container is created, no partial state
is left behind. -/
theorem create_notebook_alloc_failure (cfg : Config) (st : Engine)
    (uid : String) (rng : Nat → Nat) (binds : Nat → Bool) (runFails : Bool)
    (ip : String)
    (hfail : ∀ i, i < DEFAULT_RETRIES →
      binds (randint cfg.portStart cfg.portEnd (rng i)) = false) :
    (create_notebook cfg st uid rng binds runFails ip).1.status = 500 ∧
    (create_notebook cfg st uid rng binds runFails ip).1.error =
      some noPortsMsg ∧
    (create_notebook cfg st uid rng binds runFails ip).2 = st := by
  have herr : find_available_port cfg.portStart cfg.portEnd rng binds
      DEFAULT_RETRIES = Except.error noPortsMsg := by
    refine find_loop_err cfg.portStart cfg.portEnd rng binds DEFAULT_RETRIES 0
      fun k hk => ?_
    simpa using hfail k hk
  unfold create_notebook
  rw [herr]
  exact ⟨rfl, rfl, rfl⟩

/-- Witness for C4: with no port bindable at all, the create fails with the
allocation error and leaves the (empty) engine untouched. -/
theorem create_notebook_alloc_failure_witness :
    (create_notebook cfgW { containers := [] } "abc" (fun n => n)
        (fun _ => false) false "172.17.0.2").1.status = 500 ∧
    (create_notebook cfgW { containers := [] } "abc" (fun n => n)
        (fun _ => false) false "172.17.0.2").1.error = some noPortsMsg ∧
    (create_notebook cfgW { containers := [] } "abc" (fun n => n)
        (fun _ => false) false "172.17.0.2").2 = { containers := [] } :=
  create_notebook_alloc_failure cfgW { containers := [] } "abc" (fun n => n)
    (fun _ => false) false "172.17.0.2" (fun _ _ => rfl)

end JupyterMgr

namespace JupyterMgr

theorem mem_removeContainer (st : Engine) (n : String) (c : Container)
    (hc : c ∈ (removeContainer st n).containers) : c.name ≠ n := by
  simp [removeContainer, List.mem_filter] at hc
  exact hc.2

theorem containersGet_removeContainer (st : Engine) (n : String) :
    containersGet (removeContainer st n) n = none := by
  unfold containersGet
  refine List.find?_eq_none.mpr fun c hc => ?_
  have := mem_removeContainer st n c hc
  simp [this]

theorem find_stop_list (n : String) :
    ∀ (l : List Container) (c : Container),
      l.find? (fun x => x.name == n) = some c →
      (l.map fun x => if x.name == n then { x with running := false } else x).find?
        (fun x => x.name == n) = some { c with running := false } := by
  intro l
  induction l with
  | nil => intro c h; simp at h
  | cons a l ih =>
      intro c h
      by_cases ha : a.name = n
      · have hpa : (a.name == n) = true := by simp [ha]
        have he := @List.find?_cons_of_pos _ (fun x => x.name == n) a l hpa
        rw [he] at h
        injection h with h
        subst h
        simp only [List.map_cons, hpa, if_true]
        exact @List.find?_cons_of_pos _ (fun x => x.name == n)
          { a with running := false } _ (by simp [ha])
      · have hpa : (a.name == n) = false := by simp [ha]
        have he := @List.find?_cons_of_neg _ (fun x => x.name == n) a l
          (by simp [ha])
        rw [he] at h
        simp only [List.map_cons, hpa, Bool.false_eq_true, if_false]
        rw [@List.find?_cons_of_neg _ (fun x => x.name == n) a _ (by simp [ha])]
        exact ih c h

theorem containersGet_stopContainer (st : Engine) (n : String) (c : Container)
    (h : containersGet st n = some c) :
    containersGet (stopContainer st n) n = some { c with running := false } :=
  find_stop_list n st.containers c h

/-- C5: after a successful delete_notebook (the container is known and both
the stop and the remove succeed), the response is 200, the engine no longer
has a container with that name, and a subsequent list_notebooks does not
include the deleted name. -/
theorem delete_notebook_removes (st : Engine) (sf rf : String → Bool)
    (n : String) (c : Container) (hget : containersGet st n = some c)
    (hsf : sf n = false) (hrf : rf n = false) :
    (delete_notebook st sf rf n).1.status = 200 ∧
    containersGet (delete_notebook st sf rf n).2 n = none ∧
    ∀ e ∈ (list_notebooks (delete_notebook st sf rf n).2).notebooks,
      e.name ≠ n := by
  unfold delete_notebook
  rw [hget]
  rw [if_neg (by simp [hsf]), if_neg (by simp [hrf])]
  refine ⟨rfl, containersGet_removeContainer (stopContainer st n) n, ?_⟩
  intro e he
  simp only [list_notebooks, List.mem_map, List.mem_filter] at he
  obtain ⟨c2, ⟨hc2, _⟩, hec⟩ := he
  have hname := mem_removeContainer (stopContainer st n) n c2 hc2
  rw [← hec]
  exact hname

/-- A running managed container used to instantiate witness theorems. -/
def runningC : Container :=
  { name := "jupyter-w5", running := true, hostPort := some 9005,
    ip := "172.17.0.2", labelApp := "jupyter-notebook",
    labelManagedBy := "flask_app" }

/-- An engine knowing exactly `runningC`. -/
def engineW : Engine := { containers := [runningC] }

/-- Witness for C5: deleting `jupyter-w5` from the one-container engine
succeeds, the container is gone, and the listing no longer names it. -/
theorem delete_notebook_removes_witness :
    containersGet engineW "jupyter-w5" = some runningC ∧
    (delete_notebook engineW (fun _ => false) (fun _ => false)
      "jupyter-w5").1.status = 200 ∧
    containersGet (delete_notebook engineW (fun _ => false) (fun _ => false)
      "jupyter-w5").2 "jupyter-w5" = none ∧
    ∀ e ∈ (list_notebooks (delete_notebook engineW (fun _ => false)
      (fun _ => false) "jupyter-w5").2).notebooks, e.name ≠ "jupyter-w5" :=
  ⟨by rfl,
   delete_notebook_removes engineW (fun _ => false) (fun _ => false)
     "jupyter-w5" runningC (by rfl) rfl rfl⟩

/-- C6: delete_notebook on a name the engine does not know (including a name
already deleted) returns a 404 with the not-found error and changes no
state. -/
theorem delete_notebook_not_found (st : Engine) (sf rf : String → Bool)
    (n : String) (habs : containersGet st n = none) :
    (delete_notebook st sf rf n).1.status = 404 ∧
    (delete_notebook st sf rf n).1.error = some "Container not found." ∧
    (delete_notebook st sf rf n).2 = st := by
  unfold delete_notebook
  rw [habs]
  exact ⟨rfl, rfl, rfl⟩

/-- Witness for C6: a second delete of `jupyter-w5`, issued against the state
left by a successful first delete, yields a 404 and leaves that state
unchanged. -/
theorem delete_notebook_not_found_witness :
    containersGet (delete_notebook engineW (fun _ => false) (fun _ => false)
      "jupyter-w5").2 "jupyter-w5" = none ∧
    (delete_notebook (delete_notebook engineW (fun _ => false)
      (fun _ => false) "jupyter-w5").2 (fun _ => false) (fun _ => false)
      "jupyter-w5").1.status = 404 ∧
    (delete_notebook (delete_notebook engineW (fun _ => false)
      (fun _ => false) "jupyter-w5").2 (fun _ => false) (fun _ => false)
      "jupyter-w5").2 = (delete_notebook engineW (fun _ => false)
      (fun _ => false) "jupyter-w5").2 :=
  ⟨by rfl,
   (delete_notebook_not_found (delete_notebook engineW (fun _ => false)
      (fun _ => false) "jupyter-w5").2 (fun _ => false) (fun _ => false)
      "jupyter-w5" (by rfl)).1,
   (delete_notebook_not_found (delete_notebook engineW (fun _ => false)
      (fun _ => false) "jupyter-w5").2 (fun _ => false) (fun _ => false)
      "jupyter-w5" (by rfl)).2.2⟩

/-- C10: if during delete_notebook the stop succeeds but the remove fails
with a docker APIError, the handler returns 500 and performs no rollback:
the engine still knows the container, now stopped but not removed. -/
theorem delete_notebook_remove_failure (st : Engine) (sf rf : String → Bool)
    (n : String) (c : Container) (hget : containersGet st n = some c)
    (hsf : sf n = false) (hrf : rf n = true) :
    (delete_notebook st sf rf n).1.status = 500 ∧
    (delete_notebook st sf rf n).1.error = some "Docker API error." ∧
    (delete_notebook st sf rf n).2 = stopContainer st n ∧
    containersGet (delete_notebook st sf rf n).2 n =
      some { c with running := false } := by
  unfold delete_notebook
  rw [hget, if_neg (by simp [hsf]), if_pos hrf]
  exact ⟨rfl, rfl, rfl, containersGet_stopContainer st n c hget⟩

/-- Witness for C10: deleting `jupyter-w5` when the remove call fails leaves
the container in the engine, stopped. -/
theorem delete_notebook_remove_failure_witness :
    containersGet engineW "jupyter-w5" = some runningC ∧
    (delete_notebook engineW (fun _ => false) (fun _ => true)
      "jupyter-w5").1.status = 500 ∧
    containersGet (delete_notebook engineW (fun _ => false) (fun _ => true)
      "jupyter-w5").2 "jupyter-w5" =
      some { runningC with running := false } :=
  ⟨by rfl,
   (delete_notebook_remove_failure engineW (fun _ => false) (fun _ => true)
      "jupyter-w5" runningC (by rfl) rfl rfl).1,
   (delete_notebook_remove_failure engineW (fun _ => false) (fun _ => true)
      "jupyter-w5" runningC (by rfl) rfl rfl).2.2.2⟩

end JupyterMgr

namespace JupyterMgr

/-- C7: a request to the create, list or delete endpoint whose x-api-key
header is absent or empty is rejected with HTTP 401 and the handler body is
not executed: the engine state is returned unchanged. -/
theorem missing_or_empty_key_rejected (cfg : Config) (key : Option String)
    (st : Engine) (uid : String) (rng : Nat → Nat) (binds : Nat → Bool)
    (runFails : Bool) (ip : String) (sf rf : String → Bool) (n : String)
    (hkey : key = none ∨ key = some "") :
    (handle_create cfg key st uid rng binds runFails ip).1.status = 401 ∧
    (handle_create cfg key st uid rng binds runFails ip).2 = st ∧
    (handle_list cfg key st).1.status = 401 ∧
    (handle_list cfg key st).2 = st ∧
    (handle_delete cfg key st sf rf n).1.status = 401 ∧
    (handle_delete cfg key st sf rf n).2 = st := by
  have hauth : authenticate key cfg.apiKey = false := by
    rcases hkey with h | h <;> subst h <;> simp [authenticate]
  unfold handle_create handle_list handle_delete
  rw [if_neg (by simp [hauth]), if_neg (by simp [hauth]),
    if_neg (by simp [hauth])]
  exact ⟨rfl, rfl, rfl, rfl, rfl, rfl⟩

/-- Witness for C7: a request with no x-api-key header against the
one-container engine gets a 401 from each endpoint and the engine is
untouched. -/
theorem missing_or_empty_key_rejected_witness :
    (handle_create cfgW none engineW "abc" (fun i => i) (fun p => p == 9001)
      false "172.17.0.2").1.status = 401 ∧
    (handle_create cfgW none engineW "abc" (fun i => i) (fun p => p == 9001)
      false "172.17.0.2").2 = engineW ∧
    (handle_list cfgW none engineW).1.status = 401 ∧
    (handle_list cfgW none engineW).2 = engineW ∧
    (handle_delete cfgW none engineW (fun _ => false) (fun _ => false)
      "jupyter-w5").1.status = 401 ∧
    (handle_delete cfgW none engineW (fun _ => false) (fun _ => false)
      "jupyter-w5").2 = engineW :=
  missing_or_empty_key_rejected cfgW none engineW "abc" (fun i => i)
    (fun p => p == 9001) false "172.17.0.2" (fun _ => false) (fun _ => false)
    "jupyter-w5" (Or.inl rfl)

/-- C9: whenever authentication fails (missing, empty or wrong key), no
endpoint performs an engine operation: the engine state is returned
unchanged by create, list and delete, and the rejected list response carries
no notebook data.  Moreover, when API_KEY is configured as the empty string,
no request at all can authenticate. -/
theorem auth_failure_no_engine_effect (cfg : Config) (key : Option String)
    (st : Engine) (uid : String) (rng : Nat → Nat) (binds : Nat → Bool)
    (runFails : Bool) (ip : String) (sf rf : String → Bool) (n : String)
    (hauth : authenticate key cfg.apiKey = false) :
    (∀ k, authenticate k "" = false) ∧
    (handle_create cfg key st uid rng binds runFails ip).2 = st ∧
    (handle_list cfg key st).2 = st ∧
    (handle_list cfg key st).1.notebooks = [] ∧
    (handle_delete cfg key st sf rf n).2 = st := by
  refine ⟨?_, ?_⟩
  · intro k
    rcases k with _ | s
    · rfl
    · by_cases h : s = "" <;> simp [authenticate, h]
  · unfold handle_create handle_list handle_delete
    rw [if_neg (by simp [hauth]), if_neg (by simp [hauth]),
      if_neg (by simp [hauth])]
    exact ⟨rfl, rfl, rfl, rfl⟩

/-- Witness for C9: a request carrying the wrong key `wrong` changes nothing
at the engine and obtains no notebook data. -/
theorem auth_failure_no_engine_effect_witness :
    authenticate (some "wrong") cfgW.apiKey = false ∧
    ((∀ k, authenticate k "" = false) ∧
     (handle_create cfgW (some "wrong") engineW "abc" (fun i => i)
       (fun p => p == 9001) false "172.17.0.2").2 = engineW ∧
     (handle_list cfgW (some "wrong") engineW).2 = engineW ∧
     (handle_list cfgW (some "wrong") engineW).1.notebooks = [] ∧
     (handle_delete cfgW (some "wrong") engineW (fun _ => false)
       (fun _ => false) "jupyter-w5").2 = engineW) :=
  ⟨by rfl,
   auth_failure_no_engine_effect cfgW (some "wrong") engineW "abc"
     (fun i => i) (fun p => p == 9001) false "172.17.0.2" (fun _ => false)
     (fun _ => false) "jupyter-w5" (by rfl)⟩

/-- A managed container that has stopped (externally, behind the service):
the engine reports it as not running. -/
def stoppedC : Container :=
  { name := "jupyter-c1", running := false, hostPort := some 9001, ip := "",
    labelApp := "jupyter-notebook", labelManagedBy := "flask_app" }

/-- An engine whose only container is the stopped `stoppedC`. -/
def engineC1 : Engine := { containers := [stoppedC] }

/-- Counterexample to C1: the engine knows exactly one managed container and
reports it as stopped, yet list_notebooks still returns it (the listing is
taken with all=True, so a container stopped behind the service's back does
not disappear from the next list call). -/
theorem list_notebooks_shows_stopped :
    stoppedC.running = false ∧
    (list_notebooks engineC1).notebooks =
      [{ name := "jupyter-c1", status := "exited", port := some 9001,
         ip := "" }] :=
  ⟨rfl, by rfl⟩

/-- C1 amended: list_notebooks returns every container carrying the managed
label regardless of run state; in particular a managed container that has
stopped externally still appears in the next listing, reported with a
non-running status, until it is removed. -/
theorem list_notebooks_includes_stopped (st : Engine) (c : Container)
    (hmem : c ∈ st.containers) (hlabel : c.labelManagedBy = "flask_app")
    (hstopped : c.running = false) :
    ({ name := c.name, status := "exited", port := c.hostPort,
       ip := c.ip } : NotebookEntry) ∈ (list_notebooks st).notebooks := by
  simp only [list_notebooks, List.mem_map, List.mem_filter]
  refine ⟨c, ⟨hmem, by simp [managedFilter, hlabel]⟩, ?_⟩
  simp [containerStatus, hstopped]

/-- Witness for the amended C1: the stopped container of `engineC1` appears
in the listing with status `exited`. -/
theorem list_notebooks_includes_stopped_witness :
    ({ name := "jupyter-c1", status := "exited", port := some 9001,
       ip := "" } : NotebookEntry) ∈ (list_notebooks engineC1).notebooks :=
  list_notebooks_includes_stopped engineC1 stoppedC (by simp [engineC1])
    (by rfl) rfl

end JupyterMgr
